import Mathlib

/-!
Shallow embedding of the DynamoDB subscriptions adapter
(`dynamodb.go` of aaronland/go-mailinglist-database-dynamodb).

The DynamoDB table is modelled as a partial map from the partition key
`address` to the stored attribute map.  A stored attribute map (`Item`)
either unmarshals to a `Subscription` record or is malformed, in which
case `UnmarshalMap` returns the client library's error, carried here as
a string message.  `GetItem` on a missing key returns an empty attribute
map, which unmarshals to the zero-value subscription whose address is
the empty string — exactly the case `itemToSubscription` maps to
`NoRecordError`.

Scans are modelled by the sequence of page responses the client returns
for the table: each page is either a client error or a list of items,
and the continuation-token loop of `scanSubscriptions` is recursion over
that sequence.  The effect of the Go callback is modelled by threading a
state `σ` through a callback `Subscription → σ → Except DBError σ`.
-/

/-- The `subscription.Subscription` record: address (the unique key),
creation timestamp and confirmation timestamp (`confirmed = 0` meaning
unconfirmed, per the commented-out filter expression). -/
structure Subscription where
  address : String
  created : Int
  confirmed : Int
deriving DecidableEq, Repr

/-- Errors surfaced by the adapter: `database.NoRecordError`, the
"Subscription already exists" error built by `AddSubscription`, and any
error of the managed client or its attribute (un)marshaller, passed
through unmodified and identified here by its message. -/
inductive DBError where
  | noRecord : DBError
  | alreadyExists : DBError
  | client : String → DBError
deriving DecidableEq, Repr

/-- A stored attribute map: either the marshalled form of a subscription
record, or an attribute map `UnmarshalMap` fails on with a client error. -/
inductive Item where
  | sub : Subscription → Item
  | malformed : String → Item
deriving DecidableEq, Repr

/-- The subscriptions table: partition key `address` to stored item. -/
def Table : Type := String → Option Item

/-- The table with no stored records. -/
def emptyTable : Table := fun _ => none

/-- The item `GetItem` yields on a missing key: an empty attribute map, which
unmarshals to the zero-value subscription (empty address, zero times). -/
def emptyItem : Item := Item.sub { address := "", created := 0, confirmed := 0 }

/-- The attribute map `GetItem` returns for `addr`: the stored item, or
the empty attribute map when no record matches. -/
def getItem (t : Table) (addr : String) : Item :=
  (t addr).getD emptyItem

/-- Model of `itemToSubscription`: unmarshal the attribute map; a malformed map
returns the unmarshaller's error unmodified; a subscription whose
`Address` is the empty string returns a `NoRecordError`. -/
def itemToSubscription (item : Item) : Except DBError Subscription :=
  match item with
  | Item.malformed m => Except.error (DBError.client m)
  | Item.sub s =>
      if s.address = "" then Except.error DBError.noRecord
      else Except.ok s

/-- Model of `GetSubscriptionWithAddress`: point `GetItem` lookup by key,
followed by `itemToSubscription`. -/
def GetSubscriptionWithAddress (t : Table) (addr : String) :
    Except DBError Subscription :=
  itemToSubscription (getItem t addr)

/-- Model of `putSubscription`: marshal the record and `PutItem` it under
its own `address` attribute, replacing any stored item for that key. -/
def putSubscription (t : Table) (sub : Subscription) : Table :=
  fun k => if k = sub.address then some (Item.sub sub) else t k

/-- Model of `AddSubscription`: look the address up first; a decoded record means
"Subscription already exists"; a `NoRecordError` means the record is
absent and the subscription is put; any other lookup error is returned
as is.  The pair is (table afterwards, error returned). -/
def AddSubscription (t : Table) (sub : Subscription) : Table × Option DBError :=
  match GetSubscriptionWithAddress t sub.address with
  | Except.ok _ => (t, some DBError.alreadyExists)
  | Except.error DBError.noRecord => (putSubscription t sub, none)
  | Except.error e => (t, some e)

/-- Model of `RemoveSubscription`: unconditional `DeleteItem` keyed by the
subscription's address. -/
def RemoveSubscription (t : Table) (sub : Subscription) : Table :=
  fun k => if k = sub.address then none else t k

/-- Model of `UpdateSubscription`: unconditional `putSubscription`. -/
def UpdateSubscription (t : Table) (sub : Subscription) : Table :=
  putSubscription t sub

/-- One `Scan` response: a client error, or the page's items. -/
abbrev PageResult : Type := Except DBError (List Item)

/-- The inner loop of `scanSubscriptions` over one page's items: decode
each item, hand it to the callback, abort on the first error. -/
def processItems {σ : Type} :
    List Item → (Subscription → σ → Except DBError σ) → σ → Except DBError σ
  | [], _, s => Except.ok s
  | it :: rest, cb, s =>
      match itemToSubscription it with
      | Except.error e => Except.error e
      | Except.ok sub =>
          match cb sub s with
          | Except.error e => Except.error e
          | Except.ok s' => processItems rest cb s'

/-- Model of `scanSubscriptions`: the continuation-token loop.  Each iteration
issues `Scan` (one `PageResult`), returns its error if it failed,
processes its items, and continues with the next page until the last
evaluated key is exhausted. -/
def scanSubscriptions {σ : Type} :
    List PageResult → (Subscription → σ → Except DBError σ) → σ → Except DBError σ
  | [], _, s => Except.ok s
  | p :: rest, cb, s =>
      match p with
      | Except.error e => Except.error e
      | Except.ok items =>
          match processItems items cb s with
          | Except.error e => Except.error e
          | Except.ok s' => scanSubscriptions rest cb s'

/-- Model of `ListSubscriptionsConfirmed`: builds a `ScanInput` with no filter
expression (the confirmation filter is only a comment in the source) and
runs `scanSubscriptions`. -/
def ListSubscriptionsConfirmed {σ : Type}
    (pages : List PageResult) (cb : Subscription → σ → Except DBError σ)
    (s : σ) : Except DBError σ :=
  scanSubscriptions pages cb s

/-- Model of `ListSubscriptionsUnconfirmed`: identical unfiltered `ScanInput`,
same `scanSubscriptions` call. -/
def ListSubscriptionsUnconfirmed {σ : Type}
    (pages : List PageResult) (cb : Subscription → σ → Except DBError σ)
    (s : σ) : Except DBError σ :=
  scanSubscriptions pages cb s

/-- Decode a list of items in order, aborting on the first error; the
reference denotation of what a successful scan delivers. -/
def decodeItems : List Item → Except DBError (List Subscription)
  | [] => Except.ok []
  | it :: rest =>
      match itemToSubscription it with
      | Except.error e => Except.error e
      | Except.ok sub =>
          match decodeItems rest with
          | Except.error e => Except.error e
          | Except.ok subs => Except.ok (sub :: subs)

/-- A callback that records every subscription it is invoked on, in
invocation order, and never fails. -/
def cbLog : Subscription → List Subscription → Except DBError (List Subscription) :=
  fun sub l => Except.ok (l ++ [sub])

/-- Lookup on a missing key: empty attribute map, zero-value decode,
`NoRecordError`. -/
lemma get_none_aux (t : Table) (addr : String) (h : t addr = none) :
    GetSubscriptionWithAddress t addr = Except.error DBError.noRecord := by
  simp [GetSubscriptionWithAddress, getItem, h, emptyItem, itemToSubscription]

/-- Lookup after a put of `sub` at its own address, when the address is
non-empty, decodes back to `sub`. -/
lemma get_put_aux (t : Table) (sub : Subscription) (h : sub.address ≠ "") :
    GetSubscriptionWithAddress (putSubscription t sub) sub.address =
      Except.ok sub := by
  simp [GetSubscriptionWithAddress, putSubscription, getItem, itemToSubscription, h]

/-- C4: for every address with no matching stored record,
`GetSubscriptionWithAddress` returns the `NoRecordError` ("not found")
kind, not a subscription and not any other error. -/
theorem C4_get_missing_not_found (t : Table) (addr : String)
    (h : t addr = none) :
    GetSubscriptionWithAddress t addr = Except.error DBError.noRecord :=
  get_none_aux t addr h

theorem C4_get_missing_not_found_witness :
    emptyTable "alice@example.com" = none ∧
      GetSubscriptionWithAddress emptyTable "alice@example.com" =
        Except.error DBError.noRecord :=
  ⟨rfl, C4_get_missing_not_found emptyTable "alice@example.com" rfl⟩

/-- C5: `RemoveSubscription` deletes the record keyed by the
subscription's address unconditionally (it is total, whether or not a
record was stored), and a subsequent `GetSubscriptionWithAddress` for
that address returns the `NoRecordError` ("not found") kind. -/
theorem C5_remove_then_get_not_found (t : Table) (sub : Subscription) :
    RemoveSubscription t sub sub.address = none ∧
      GetSubscriptionWithAddress (RemoveSubscription t sub) sub.address =
        Except.error DBError.noRecord := by
  have hr : RemoveSubscription t sub sub.address = none := by
    simp [RemoveSubscription]
  exact ⟨hr, get_none_aux _ _ hr⟩

/-- C6: `UpdateSubscription` is an unconditional upsert: it is exactly
`putSubscription` (so it succeeds whether or not a record with that
address exists), and afterwards the item stored for the subscription's
address is the marshalled form of the given subscription. -/
theorem C6_update_upsert (t : Table) (sub : Subscription) :
    UpdateSubscription t sub = putSubscription t sub ∧
      UpdateSubscription t sub sub.address = some (Item.sub sub) := by
  refine ⟨rfl, ?_⟩
  simp [UpdateSubscription, putSubscription]

/-- C2: when the address already has a stored record (the lookup decodes
a subscription), `AddSubscription` returns the "already exists" error
and leaves the table — in particular the stored record for that address
— unchanged; when no record is stored for the address, it inserts the
subscription via `putSubscription`. -/
theorem C2_add_exists_or_inserts (t : Table) (sub : Subscription) :
    (∀ ex : Subscription,
        GetSubscriptionWithAddress t sub.address = Except.ok ex →
          AddSubscription t sub = (t, some DBError.alreadyExists)) ∧
    (t sub.address = none →
        AddSubscription t sub = (putSubscription t sub, none)) := by
  constructor
  · intro ex h
    simp [AddSubscription, h]
  · intro h
    simp [AddSubscription, get_none_aux t sub.address h]

theorem C2_add_exists_or_inserts_witness :
    AddSubscription (putSubscription emptyTable ⟨"a@b.c", 1, 0⟩) ⟨"a@b.c", 2, 3⟩ =
        (putSubscription emptyTable ⟨"a@b.c", 1, 0⟩, some DBError.alreadyExists) ∧
      AddSubscription emptyTable ⟨"a@b.c", 2, 3⟩ =
        (putSubscription emptyTable ⟨"a@b.c", 2, 3⟩, none) :=
  ⟨(C2_add_exists_or_inserts _ ⟨"a@b.c", 2, 3⟩).1 ⟨"a@b.c", 1, 0⟩
      (by simp [GetSubscriptionWithAddress, putSubscription, getItem, itemToSubscription]),
    (C2_add_exists_or_inserts emptyTable ⟨"a@b.c", 2, 3⟩).2 rfl⟩

/-- C1 (counterexample to the unqualified claim): the zero-value
subscription with the empty address is written by `UpdateSubscription`,
but reading its address back yields the `NoRecordError`, not the record,
because `itemToSubscription` maps an empty decoded address to "not
found". -/
theorem C1_counterexample :
    GetSubscriptionWithAddress
        (UpdateSubscription emptyTable { address := "", created := 0, confirmed := 0 }) "" ≠
      Except.ok { address := "", created := 0, confirmed := 0 } := by
  simp [GetSubscriptionWithAddress, UpdateSubscription, putSubscription,
    getItem, itemToSubscription]

/-- C1 (amended): for every subscription whose address is non-empty,
writing it with `UpdateSubscription` — or with `AddSubscription` when
the add succeeds — and then calling `GetSubscriptionWithAddress` with
its address returns a subscription record equal to the one written. -/
theorem C1_roundtrip (t : Table) (sub : Subscription) (h : sub.address ≠ "") :
    GetSubscriptionWithAddress (UpdateSubscription t sub) sub.address =
        Except.ok sub ∧
      ((AddSubscription t sub).2 = none →
        GetSubscriptionWithAddress (AddSubscription t sub).1 sub.address =
          Except.ok sub) := by
  constructor
  · exact get_put_aux t sub h
  · intro hok
    cases hg : GetSubscriptionWithAddress t sub.address with
    | ok ex => simp [AddSubscription, hg] at hok
    | error e =>
        cases e with
        | noRecord =>
            simp only [AddSubscription, hg]
            exact get_put_aux t sub h
        | alreadyExists => simp [AddSubscription, hg] at hok
        | client m => simp [AddSubscription, hg] at hok

theorem C1_roundtrip_witness :
    GetSubscriptionWithAddress
        (UpdateSubscription emptyTable ⟨"a@b.c", 5, 7⟩) "a@b.c" =
        Except.ok ⟨"a@b.c", 5, 7⟩ ∧
      GetSubscriptionWithAddress
          (AddSubscription emptyTable ⟨"a@b.c", 5, 7⟩).1 "a@b.c" =
        Except.ok ⟨"a@b.c", 5, 7⟩ :=
  ⟨(C1_roundtrip emptyTable ⟨"a@b.c", 5, 7⟩ (by decide)).1,
    (C1_roundtrip emptyTable ⟨"a@b.c", 5, 7⟩ (by decide)).2 rfl⟩

/-- The inner loop with the recording callback appends exactly the
decoded subscriptions of the page, in order, to the log. -/
lemma processItems_cbLog (its : List Item) (acc subs : List Subscription)
    (h : decodeItems its = Except.ok subs) :
    processItems its cbLog acc = Except.ok (acc ++ subs) := by
  induction its generalizing acc subs with
  | nil =>
      simp [decodeItems] at h
      simp [processItems, ← h]
  | cons it rest ih =>
      cases hd : itemToSubscription it with
      | error e => simp [decodeItems, hd] at h
      | ok sub =>
          cases hrest : decodeItems rest with
          | error e => simp [decodeItems, hd, hrest] at h
          | ok subs' =>
              simp [decodeItems, hd, hrest] at h
              simp only [processItems, hd, cbLog]
              rw [ih (acc ++ [sub]) subs' hrest, ← h]
              simp

/-- Decoding a concatenation splits into decoding the two halves. -/
lemma decodeItems_append (a b : List Item) (subs : List Subscription)
    (h : decodeItems (a ++ b) = Except.ok subs) :
    ∃ s1 s2, decodeItems a = Except.ok s1 ∧ decodeItems b = Except.ok s2 ∧
      subs = s1 ++ s2 := by
  induction a generalizing subs with
  | nil =>
      exact ⟨[], subs, rfl, h, rfl⟩
  | cons it rest ih =>
      cases hd : itemToSubscription it with
      | error e => simp [decodeItems, hd] at h
      | ok sub =>
          cases hrest : decodeItems (rest ++ b) with
          | error e => simp [decodeItems, hd, hrest] at h
          | ok subs' =>
              simp [decodeItems, hd, hrest] at h
              obtain ⟨s1, s2, h1, h2, h3⟩ := ih subs' hrest
              exact ⟨sub :: s1, s2, by simp [decodeItems, hd, h1], h2,
                by simp [← h, h3]⟩

/-- The continuation-token loop with the recording callback, over pages
that all succeed and whose items all decode, appends exactly the decoded
subscriptions of all pages, in order. -/
lemma scan_cbLog (pp : List (List Item)) (acc subs : List Subscription)
    (h : decodeItems pp.flatten = Except.ok subs) :
    scanSubscriptions (pp.map fun its => Except.ok its) cbLog acc =
      Except.ok (acc ++ subs) := by
  induction pp generalizing acc subs with
  | nil =>
      simp [List.flatten] at h
      simp [decodeItems] at h
      simp [scanSubscriptions, ← h]
  | cons p rest ih =>
      rw [List.flatten_cons] at h
      obtain ⟨s1, s2, h1, h2, h3⟩ := decodeItems_append p rest.flatten subs h
      simp only [List.map_cons, scanSubscriptions,
        processItems_cbLog p acc s1 h1]
      rw [ih (acc ++ s1) s2 h2, h3]
      simp

/-- C7: a successful list drains all pages and the callback is invoked
exactly once per stored record: with the recording callback, the log of
invocations equals the decoded records of the concatenated pages — no
record skipped, none delivered twice, in scan order. -/
theorem C7_scan_once_per_record (pp : List (List Item))
    (subs : List Subscription)
    (h : decodeItems pp.flatten = Except.ok subs) :
    scanSubscriptions (pp.map fun its => Except.ok its) cbLog [] =
      Except.ok subs := by
  have := scan_cbLog pp [] subs h
  simpa using this

theorem C7_scan_once_per_record_witness :
    decodeItems ([[Item.sub ⟨"a@b.c", 1, 0⟩],
        [Item.sub ⟨"d@e.f", 2, 5⟩, Item.sub ⟨"g@h.i", 3, 0⟩]] : List (List Item)).flatten =
        Except.ok [⟨"a@b.c", 1, 0⟩, ⟨"d@e.f", 2, 5⟩, ⟨"g@h.i", 3, 0⟩] ∧
      scanSubscriptions
          (([[Item.sub ⟨"a@b.c", 1, 0⟩],
            [Item.sub ⟨"d@e.f", 2, 5⟩, Item.sub ⟨"g@h.i", 3, 0⟩]] :
              List (List Item)).map fun its => Except.ok its) cbLog [] =
        Except.ok [⟨"a@b.c", 1, 0⟩, ⟨"d@e.f", 2, 5⟩, ⟨"g@h.i", 3, 0⟩] :=
  ⟨rfl, C7_scan_once_per_record _ _ rfl⟩

/-- C3: `ListSubscriptionsConfirmed` and `ListSubscriptionsUnconfirmed`
are behaviourally identical — same result on every table state (page
sequence), callback and initial state — and each is an unfiltered scan
invoking the callback once per stored record whatever its `confirmed`
value. -/
theorem C3_confirmed_unconfirmed_identical :
    (∀ (σ : Type) (pages : List PageResult)
        (cb : Subscription → σ → Except DBError σ) (s : σ),
        ListSubscriptionsConfirmed pages cb s =
          ListSubscriptionsUnconfirmed pages cb s) ∧
    (∀ (pp : List (List Item)) (subs : List Subscription),
        decodeItems pp.flatten = Except.ok subs →
        ListSubscriptionsConfirmed (pp.map fun its => Except.ok its) cbLog [] =
            Except.ok subs ∧
          ListSubscriptionsUnconfirmed (pp.map fun its => Except.ok its) cbLog [] =
            Except.ok subs) := by
  refine ⟨fun _ _ _ _ => rfl, fun pp subs h => ?_⟩
  have := scan_cbLog pp [] subs h
  simp only [List.nil_append] at this
  exact ⟨this, this⟩

theorem C3_confirmed_unconfirmed_identical_witness :
    ListSubscriptionsConfirmed
        (([[Item.sub ⟨"a@b.c", 1, 0⟩, Item.sub ⟨"d@e.f", 2, 9⟩]] :
            List (List Item)).map fun its => Except.ok its) cbLog [] =
        Except.ok [⟨"a@b.c", 1, 0⟩, ⟨"d@e.f", 2, 9⟩] ∧
      ListSubscriptionsUnconfirmed
          (([[Item.sub ⟨"a@b.c", 1, 0⟩, Item.sub ⟨"d@e.f", 2, 9⟩]] :
              List (List Item)).map fun its => Except.ok its) cbLog [] =
        Except.ok [⟨"a@b.c", 1, 0⟩, ⟨"d@e.f", 2, 9⟩] :=
  C3_confirmed_unconfirmed_identical.2
    [[Item.sub ⟨"a@b.c", 1, 0⟩, Item.sub ⟨"d@e.f", 2, 9⟩]]
    [⟨"a@b.c", 1, 0⟩, ⟨"d@e.f", 2, 9⟩] rfl

/-- C10: the first error aborts `scanSubscriptions` immediately and is
returned to the caller unchanged: a failing page request, a failing item
decode, or a failing callback each yields exactly that error, whatever
items or pages would have followed (they are quantified but absent from
the result, so no later record is decoded or delivered). -/
theorem C10_scan_aborts_on_first_error :
    (∀ (σ : Type) (e : DBError) (rest : List PageResult)
        (cb : Subscription → σ → Except DBError σ) (s : σ),
        scanSubscriptions (Except.error e :: rest) cb s = Except.error e) ∧
    (∀ (σ : Type) (it : Item) (more : List Item) (rest : List PageResult)
        (cb : Subscription → σ → Except DBError σ) (s : σ) (e : DBError),
        itemToSubscription it = Except.error e →
        scanSubscriptions (Except.ok (it :: more) :: rest) cb s =
          Except.error e) ∧
    (∀ (σ : Type) (it : Item) (sub : Subscription) (more : List Item)
        (rest : List PageResult) (cb : Subscription → σ → Except DBError σ)
        (s : σ) (e : DBError),
        itemToSubscription it = Except.ok sub → cb sub s = Except.error e →
        scanSubscriptions (Except.ok (it :: more) :: rest) cb s =
          Except.error e) := by
  refine ⟨fun _ _ _ _ _ => rfl, fun σ it more rest cb s e hd => ?_,
    fun σ it sub more rest cb s e hd hcb => ?_⟩
  · simp [scanSubscriptions, processItems, hd]
  · simp [scanSubscriptions, processItems, hd, hcb]

theorem C10_scan_aborts_on_first_error_witness :
    scanSubscriptions
        (Except.error (DBError.client "page boom") ::
          [Except.ok [Item.sub ⟨"a@b.c", 1, 0⟩]]) cbLog [] =
        Except.error (DBError.client "page boom") ∧
      scanSubscriptions
          (Except.ok [Item.malformed "bad item", Item.sub ⟨"a@b.c", 1, 0⟩] ::
            [Except.ok [Item.sub ⟨"d@e.f", 2, 0⟩]]) cbLog [] =
        Except.error (DBError.client "bad item") ∧
      scanSubscriptions
          (Except.ok [Item.sub ⟨"a@b.c", 1, 0⟩, Item.sub ⟨"d@e.f", 2, 0⟩] ::
            [Except.ok [Item.sub ⟨"g@h.i", 3, 0⟩]])
          (fun _ _ => Except.error (DBError.client "cb boom"))
          ([] : List Subscription) =
        Except.error (DBError.client "cb boom") :=
  ⟨C10_scan_aborts_on_first_error.1 _ _ _ cbLog [],
    C10_scan_aborts_on_first_error.2.1 _ (Item.malformed "bad item") _ _ cbLog [] _ rfl,
    C10_scan_aborts_on_first_error.2.2 _ (Item.sub ⟨"a@b.c", 1, 0⟩) ⟨"a@b.c", 1, 0⟩ _ _
      (fun _ _ => Except.error (DBError.client "cb boom")) [] _ (by simp [itemToSubscription]) rfl⟩

/-- C9: `GetSubscriptionWithAddress` never returns a record with an
empty address: any decoded record has a non-empty address, and any
stored item decoding to an empty address — the empty item of a missing
key included — yields the `NoRecordError` instead. -/
theorem C9_get_never_empty_address (t : Table) (addr : String) :
    (∀ sub : Subscription,
        GetSubscriptionWithAddress t addr = Except.ok sub →
          sub.address ≠ "") ∧
    (∀ sub : Subscription,
        getItem t addr = Item.sub sub → sub.address = "" →
          GetSubscriptionWithAddress t addr =
            Except.error DBError.noRecord) := by
  constructor
  · intro sub h
    cases hi : getItem t addr with
    | malformed m => simp [GetSubscriptionWithAddress, hi, itemToSubscription] at h
    | sub s =>
        by_cases hs : s.address = ""
        · simp [GetSubscriptionWithAddress, hi, itemToSubscription, hs] at h
        · simp [GetSubscriptionWithAddress, hi, itemToSubscription, hs] at h
          rw [← h]
          exact hs
  · intro sub hi he
    simp [GetSubscriptionWithAddress, hi, itemToSubscription, he]

theorem C9_get_never_empty_address_witness :
    (⟨"a@b.c", 1, 2⟩ : Subscription).address ≠ "" ∧
      GetSubscriptionWithAddress emptyTable "missing@x.y" =
        Except.error DBError.noRecord :=
  ⟨(C9_get_never_empty_address (putSubscription emptyTable ⟨"a@b.c", 1, 2⟩)
        "a@b.c").1 ⟨"a@b.c", 1, 2⟩
      (by simp [GetSubscriptionWithAddress, putSubscription, getItem, itemToSubscription]),
    (C9_get_never_empty_address emptyTable "missing@x.y").2
      ⟨"", 0, 0⟩ rfl rfl⟩

/-- A failed lookup is either the adapter's own `NoRecordError` or the
unmarshaller's error for a malformed stored item, passed through. -/
lemma get_error_cases (t : Table) (addr : String) (e : DBError)
    (h : GetSubscriptionWithAddress t addr = Except.error e) :
    e = DBError.noRecord ∨
      ∃ m, e = DBError.client m ∧ getItem t addr = Item.malformed m := by
  cases hi : getItem t addr with
  | malformed m =>
      simp [GetSubscriptionWithAddress, hi, itemToSubscription] at h
      exact Or.inr ⟨m, h.symm, rfl⟩
  | sub s =>
      by_cases hs : s.address = ""
      · simp [GetSubscriptionWithAddress, hi, itemToSubscription, hs] at h
        exact Or.inl h.symm
      · simp [GetSubscriptionWithAddress, hi, itemToSubscription, hs] at h

/-- A failed inner loop traces to a failing item decode or a failing
callback invocation, with the error unchanged. -/
lemma processItems_error_cases {σ : Type} (its : List Item)
    (cb : Subscription → σ → Except DBError σ) (s : σ) (e : DBError)
    (h : processItems its cb s = Except.error e) :
    (∃ it ∈ its, itemToSubscription it = Except.error e) ∨
      ∃ sub st, cb sub st = Except.error e := by
  induction its generalizing s with
  | nil => simp [processItems] at h
  | cons it rest ih =>
      cases hd : itemToSubscription it with
      | error e' =>
          simp [processItems, hd] at h
          exact Or.inl ⟨it, by simp, by rw [hd, h]⟩
      | ok sub =>
          cases hcb : cb sub s with
          | error e' =>
              simp [processItems, hd, hcb] at h
              exact Or.inr ⟨sub, s, by rw [hcb, h]⟩
          | ok s' =>
              simp only [processItems, hd, hcb] at h
              rcases ih s' h with ⟨it', hmem, hdec⟩ | hr
              · exact Or.inl ⟨it', by simp [hmem], hdec⟩
              · exact Or.inr hr

/-- A failed scan traces to a failing page request, a failing item
decode on a returned page, or a failing callback invocation, with the
error unchanged. -/
lemma scan_error_cases {σ : Type} (pages : List PageResult)
    (cb : Subscription → σ → Except DBError σ) (s : σ) (e : DBError)
    (h : scanSubscriptions pages cb s = Except.error e) :
    (Except.error e : PageResult) ∈ pages ∨
      (∃ its it, (Except.ok its : PageResult) ∈ pages ∧ it ∈ its ∧
        itemToSubscription it = Except.error e) ∨
      ∃ sub st, cb sub st = Except.error e := by
  induction pages generalizing s with
  | nil => simp [scanSubscriptions] at h
  | cons p rest ih =>
      cases p with
      | error e' =>
          simp [scanSubscriptions] at h
          exact Or.inl (by simp [h])
      | ok its =>
          cases hp : processItems its cb s with
          | error e' =>
              simp [scanSubscriptions, hp] at h
              rcases processItems_error_cases its cb s e (by rw [hp, h]) with
                ⟨it, hmem, hdec⟩ | hr
              · exact Or.inr (Or.inl ⟨its, it, by simp, hmem, hdec⟩)
              · exact Or.inr (Or.inr hr)
          | ok s' =>
              simp only [scanSubscriptions, hp] at h
              rcases ih s' h with hpage | ⟨its', it, hmem, hin, hdec⟩ | hr
              · exact Or.inl (by simp [hpage])
              · exact Or.inr (Or.inl ⟨its', it, by simp [hmem], hin, hdec⟩)
              · exact Or.inr (Or.inr hr)

/-- C8: the adapter constructs exactly two error kinds of its own — the
"not found" `NoRecordError` (lookup) and "already exists" (add) — and
every other failure is the managed client's error returned unmodified:
a failed lookup is "not found" or the unmarshaller's error for the
stored item; a failed add is "already exists" or that same lookup error;
a failed scan returns verbatim a page request error, an item decode
error, or a callback error. -/
theorem C8_two_error_kinds_passthrough :
    (∀ (t : Table) (addr : String) (e : DBError),
        GetSubscriptionWithAddress t addr = Except.error e →
          e = DBError.noRecord ∨
            ∃ m, e = DBError.client m ∧ getItem t addr = Item.malformed m) ∧
    (∀ (t : Table) (sub : Subscription) (e : DBError),
        (AddSubscription t sub).2 = some e →
          e = DBError.alreadyExists ∨
            ∃ m, e = DBError.client m ∧
              getItem t sub.address = Item.malformed m) ∧
    (∀ (σ : Type) (pages : List PageResult)
        (cb : Subscription → σ → Except DBError σ) (s : σ) (e : DBError),
        scanSubscriptions pages cb s = Except.error e →
          (Except.error e : PageResult) ∈ pages ∨
            (∃ its it, (Except.ok its : PageResult) ∈ pages ∧ it ∈ its ∧
              itemToSubscription it = Except.error e) ∨
            ∃ sub st, cb sub st = Except.error e) := by
  refine ⟨get_error_cases, fun t sub e h => ?_, fun σ => scan_error_cases⟩
  cases hg : GetSubscriptionWithAddress t sub.address with
  | ok ex =>
      simp [AddSubscription, hg] at h
      exact Or.inl h.symm
  | error e' =>
      cases e' with
      | noRecord => simp [AddSubscription, hg] at h
      | alreadyExists =>
          rcases get_error_cases t sub.address _ hg with h' | ⟨m, h', _⟩ <;>
            simp at h'
      | client m =>
          simp [AddSubscription, hg] at h
          rcases get_error_cases t sub.address _ hg with h' | ⟨m', hm, hi⟩
          · simp at h'
          · simp only [DBError.client.injEq] at hm
            exact Or.inr ⟨m, by rw [← h], by rw [hm]; exact hi⟩

/-- The table every key of which holds an attribute map the unmarshaller
rejects. -/
def malformedTable : Table := fun _ => some (Item.malformed "boom")

theorem C8_two_error_kinds_passthrough_witness :
    (DBError.client "boom" = DBError.noRecord ∨
      ∃ m, DBError.client "boom" = DBError.client m ∧
        getItem malformedTable "x@y.z" = Item.malformed m) ∧
    (DBError.alreadyExists = DBError.alreadyExists ∨
      ∃ m, DBError.alreadyExists = DBError.client m ∧
        getItem (putSubscription emptyTable ⟨"a@b.c", 1, 0⟩) "a@b.c" =
          Item.malformed m) ∧
    ((Except.error (DBError.client "page boom") : PageResult) ∈
        ([Except.error (DBError.client "page boom")] : List PageResult) ∨
      (∃ its it, (Except.ok its : PageResult) ∈
          ([Except.error (DBError.client "page boom")] : List PageResult) ∧
        it ∈ its ∧ itemToSubscription it =
          Except.error (DBError.client "page boom")) ∨
      ∃ sub st, cbLog sub st = Except.error (DBError.client "page boom")) :=
  ⟨C8_two_error_kinds_passthrough.1 malformedTable "x@y.z" _ rfl,
    C8_two_error_kinds_passthrough.2.1 (putSubscription emptyTable ⟨"a@b.c", 1, 0⟩)
      ⟨"a@b.c", 9, 9⟩ _
      (by simp [AddSubscription, GetSubscriptionWithAddress, putSubscription,
        getItem, itemToSubscription]),
    C8_two_error_kinds_passthrough.2.2 (List Subscription)
      [Except.error (DBError.client "page boom")] cbLog [] _ rfl⟩
